import Mathlib

/-!
Verification of the systemd-nspawn Nomad driver core.

Shallow embedding of the repository's Go sources:
- `TaskConfig` mirrors the struct in the driver configuration file
  (fields in source order, Go zero values as defaults);
- `unitLines`/`render` mirror the `nspawnTemplate` text template of
  `systemd/template.go` line by line (Go's text/template iterates a map
  in sorted key order, embedded here as `sortEnv`);
- `CreateMachine` mirrors the machine-creation sequence, with the
  filesystem and bus calls abstracted as an oracle (`CMWorld`) recording
  only each call's success or failure;
- `machineName` mirrors the machine-name computation;
- `pollFrom` mirrors the transfer-completion busy loop, indexed by fuel so
  that non-termination is observable as exhaustion at every fuel.
-/

set_option maxRecDepth 100000
set_option maxHeartbeats 2000000

namespace NomadNspawn

/-- TaskConfig is the driver configuration of a task within a job, from the
driver source. Types: Go `bool` as `Bool`, `string` as `String`, `[]string`
as `List String`, `[][]string` as `List (List String)`, `map[string]string`
as an association list, `uint32` as `Nat`, `int` as `Int`. Defaults are the
Go zero values. -/
structure TaskConfig where
  Image : String := ""
  Boot : Bool := false
  Ephemeral : Bool := false
  ProcessTwo : Bool := false
  Parameters : List String := []
  Environment : List (String × String) := []
  User : String := ""
  WorkingDirectory : String := ""
  PivotRoot : String := ""
  Capability : List String := []
  DropCapability : List String := []
  NoNewPrivileges : Bool := false
  KillSignal : Nat := 0
  Personality : String := ""
  MachineID : String := ""
  PrivateUsers : String := ""
  NotifyReady : Bool := false
  SystemCallFilter : List String := []
  LimitCPU : String := ""
  LimitFSIZE : String := ""
  LimitDATA : String := ""
  LimitSTACK : String := ""
  LimitCORE : String := ""
  LimitRSS : String := ""
  LimitNOFILE : String := ""
  LimitAS : String := ""
  LimitNPROC : String := ""
  LimitMEMLOCK : String := ""
  LimitLOCKS : String := ""
  LimitSIGPENDING : String := ""
  LimitMSGQUEUE : String := ""
  LimitNICE : String := ""
  LimitRTPRIO : String := ""
  LimitRTTIME : String := ""
  OOMScoreAdjust : Int := 0
  CPUAffinity : List String := []
  Hostname : String := ""
  ResolvConf : String := ""
  Timezone : String := ""
  LinkJournal : String := ""
  ReadOnly : Bool := false
  Volatile : String := ""
  Bind : List String := []
  BindReadOnly : List String := []
  TemporaryFileSystem : List String := []
  Inaccessible : List String := []
  Overlay : List (List String) := []
  OverlayReadOnly : List (List String) := []
  PrivateUsersChown : Bool := false
  Private : Bool := false
  VirtualEthernet : Bool := false
  VirtualEthernetExtra : List String := []
  Interface : List String := []
  MACVLAN : List String := []
  IPVLAN : List String := []
  Bridge : String := ""
  Zone : String := ""
  Port : List String := []
deriving DecidableEq

/-- One line of the rendered unit file: a `[Name]` section header, a
`Key=Value` directive, or a blank separator line. -/
inductive Line where
  | header (name : String)
  | directive (key value : String)
  | blank
deriving DecidableEq

/-- Text of one line, as the template emits it. -/
def lineText : Line → String
  | Line.header n => "[" ++ n ++ "]"
  | Line.directive k v => k ++ "=" ++ v
  | Line.blank => ""

/-- Boolean options render as the literal tokens on/off
(template fragments of the form if-on-else-off). -/
def onOff (b : Bool) : String := if b then "on" else "off"

/-- Lexicographic comparison of character lists, matching Go's bytewise
string comparison (UTF-8 byte order agrees with code-point order). Written
as a structurally recursive Boolean function so the kernel can evaluate
it. -/
def charLe : List Char → List Char → Bool
  | [], _ => true
  | _ :: _, [] => false
  | a :: as, b :: bs => if a < b then true else if b < a then false else charLe as bs

/-- Key order used by Go's text/template when ranging over a
`map[string]string`: ascending by key. -/
def envLe (p q : String × String) : Prop := charLe p.1.data q.1.data = true

instance : DecidableRel envLe := fun p q =>
  inferInstanceAs (Decidable (charLe p.1.data q.1.data = true))

/-- Go's text/template visits map entries in sorted key order; the
embedding makes that order explicit by sorting the association list. -/
def sortEnv (l : List (String × String)) : List (String × String) :=
  List.insertionSort envLe l

/-- The Environment block of the template: one directive per map entry, in
sorted key order. -/
def envLines (c : TaskConfig) : List Line :=
  (sortEnv c.Environment).map (fun p => Line.directive "Environment" (p.1 ++ "=" ++ p.2))

/-- Lines of the template between the Exec header and the Files header, in
template order. Note the template writes each joined list with the
separator fixed per field (comma for Parameters and CPUAffinity, space for
the capability and filter lists). -/
def execLines (c : TaskConfig) : List Line :=
  [Line.directive "Boot" (onOff c.Boot),
   Line.directive "Ephemeral" (onOff c.Ephemeral),
   Line.directive "ProcessTwo" (onOff c.ProcessTwo),
   Line.directive "Parameters" (String.intercalate "," c.Parameters)]
  ++ envLines c
  ++ [Line.directive "User" c.User,
   Line.directive "WorkingDirectory" c.WorkingDirectory,
   Line.directive "PivotRoot" c.PivotRoot,
   Line.directive "Capability" (String.intercalate " " c.Capability),
   Line.directive "DropCapability" (String.intercalate " " c.DropCapability),
   Line.directive "NoNewPrivileges" (onOff c.NoNewPrivileges),
   Line.directive "KillSignal" (toString c.KillSignal),
   Line.directive "Personality" c.Personality,
   Line.directive "MachineID" c.MachineID,
   Line.directive "PrivateUsers" c.PrivateUsers,
   Line.directive "NotifyReady" (onOff c.NotifyReady),
   Line.directive "SystemCallFilter" (String.intercalate " " c.SystemCallFilter),
   Line.directive "LimitCPU" c.LimitCPU,
   Line.directive "LimitFSIZE" c.LimitFSIZE,
   Line.directive "LimitDATA" c.LimitDATA,
   Line.directive "LimitSTACK" c.LimitSTACK,
   Line.directive "LimitCORE" c.LimitCORE,
   Line.directive "LimitRSS" c.LimitRSS,
   Line.directive "LimitNOFILE" c.LimitNOFILE,
   Line.directive "LimitAS" c.LimitAS,
   Line.directive "LimitNPROC" c.LimitNPROC,
   Line.directive "LimitMEMLOCK" c.LimitMEMLOCK,
   Line.directive "LimitLOCKS" c.LimitLOCKS,
   Line.directive "LimitSIGPENDING" c.LimitSIGPENDING,
   Line.directive "LimitMSGQUEUE" c.LimitMSGQUEUE,
   Line.directive "LimitNICE" c.LimitNICE,
   Line.directive "LimitRTPRIO" c.LimitRTPRIO,
   Line.directive "LimitRTTIME" c.LimitRTTIME,
   Line.directive "OOMScoreAdjust" (toString c.OOMScoreAdjust),
   Line.directive "CPUAffinity" (String.intercalate "," c.CPUAffinity),
   Line.directive "Hostname" c.Hostname,
   Line.directive "ResolvConf" c.ResolvConf,
   Line.directive "Timezone" c.Timezone,
   Line.directive "LinkJournal" c.LinkJournal]

/-- Lines of the Files section body, in template order: repeated-directive
fields (Bind, BindReadOnly, TemporaryFileSystem, Inaccessible, Overlay,
OverlayReadOnly) produce one line per element and none when empty; overlay
elements colon-join their own components. -/
def filesLines (c : TaskConfig) : List Line :=
  [Line.directive "ReadOnly" (onOff c.ReadOnly),
   Line.directive "Volatile" c.Volatile]
  ++ c.Bind.map (fun v => Line.directive "Bind" v)
  ++ c.BindReadOnly.map (fun v => Line.directive "BindReadOnly" v)
  ++ c.TemporaryFileSystem.map (fun v => Line.directive "TemporaryFileSystem" v)
  ++ c.Inaccessible.map (fun v => Line.directive "Inaccessible" v)
  ++ c.Overlay.map (fun v => Line.directive "Overlay" (String.intercalate ":" v))
  ++ c.OverlayReadOnly.map (fun v => Line.directive "OverlayReadOnly" (String.intercalate ":" v))
  ++ [Line.directive "PrivateUsersChown" (onOff c.PrivateUsersChown)]

/-- Lines of the Network section body, in template order. The template's
Interface line joins the Parameters field (not the Interface field) with
spaces; the embedding reproduces the source exactly. -/
def networkLines (c : TaskConfig) : List Line :=
  [Line.directive "Private" (onOff c.Private),
   Line.directive "VirtualEthernet" (onOff c.VirtualEthernet)]
  ++ c.VirtualEthernetExtra.map (fun v => Line.directive "VirtualEthernetExtra" v)
  ++ [Line.directive "Interface" (String.intercalate " " c.Parameters),
   Line.directive "MACVLAN" (String.intercalate " " c.MACVLAN),
   Line.directive "IPVLAN" (String.intercalate " " c.IPVLAN),
   Line.directive "Bridge" c.Bridge,
   Line.directive "Zone" c.Zone]
  ++ c.Port.map (fun v => Line.directive "Port" v)

/-- All lines of the rendered unit file, in template order: the three
sections with a blank line before the second and third headers. -/
def unitLines (c : TaskConfig) : List Line :=
  (Line.header "Exec" :: execLines c)
  ++ (Line.blank :: Line.header "Files" :: filesLines c)
  ++ (Line.blank :: Line.header "Network" :: networkLines c)

/-- The rendered unit text: every line followed by a newline, exactly as
the template (whose literal text ends each line, the last included, with a
newline). -/
def render (c : TaskConfig) : String :=
  String.join ((unitLines c).map (fun l => lineText l ++ "\n"))

/-- The input of the template test, from the test source. -/
def testConfig : TaskConfig :=
  { Boot := true
    Parameters := ["1", "2", "3"]
    Environment := [("a", "b"), ("1", "2")]
    User := "abc"
    Capability := ["1", "2", "3"]
    KillSignal := 127
    OOMScoreAdjust := 1
    Overlay := [["1", "2", "3"], ["2", "4", "6"]] }

/-- The expected output of the template test, from the test source. -/
def result : String :=
  "[Exec]\nBoot=on\nEphemeral=off\nProcessTwo=off\nParameters=1,2,3\n" ++
  "Environment=1=2\nEnvironment=a=b\nUser=abc\nWorkingDirectory=\nPivotRoot=\n" ++
  "Capability=1 2 3\nDropCapability=\nNoNewPrivileges=off\nKillSignal=127\n" ++
  "Personality=\nMachineID=\nPrivateUsers=\nNotifyReady=off\nSystemCallFilter=\n" ++
  "LimitCPU=\nLimitFSIZE=\nLimitDATA=\nLimitSTACK=\nLimitCORE=\nLimitRSS=\n" ++
  "LimitNOFILE=\nLimitAS=\nLimitNPROC=\nLimitMEMLOCK=\nLimitLOCKS=\n" ++
  "LimitSIGPENDING=\nLimitMSGQUEUE=\nLimitNICE=\nLimitRTPRIO=\nLimitRTTIME=\n" ++
  "OOMScoreAdjust=1\nCPUAffinity=\nHostname=\nResolvConf=\nTimezone=\nLinkJournal=\n" ++
  "\n[Files]\nReadOnly=off\nVolatile=\nOverlay=1:2:3\nOverlay=2:4:6\nPrivateUsersChown=off\n" ++
  "\n[Network]\nPrivate=off\nVirtualEthernet=off\nInterface=1 2 3\nMACVLAN=\nIPVLAN=\nBridge=\nZone=\n"

/-- Machine mirrors the dbus machine object struct of the source
(`time.Time` embedded as `Nat`, `[]byte` as `List Nat`). -/
structure Machine where
  Name : String := ""
  ID : List Nat := []
  Timestamp : Nat := 0
  TimestampMonotonic : Nat := 0
  Service : String := ""
  Unit : String := ""
  Leader : Int := 0
  Class : String := ""
  RootDirectory : String := ""
  NetworkInterfaces : List Int := []
  State : String := ""
deriving DecidableEq

/-- Available state for machine, from the source constants. -/
def MachineStateOpening : String := "opening"

/-- Available state for machine, from the source constants. -/
def MachineStateRunning : String := "running"

/-- Available state for machine, from the source constants. -/
def MachineStateClosing : String := "closing"

/-- Go's `strings.Replace(s, "/", "_", -1)`: with a one-character pattern
and a one-character replacement this is exactly a character map. -/
def replaceSlash (s : String) : String :=
  String.mk (s.data.map (fun ch => if ch = '/' then '_' else ch))

/-- The machine name computed at the top of CreateMachine:
`fmt.Sprintf("%s-%s", strings.Replace(cfg.Name, "/", "_", -1), cfg.AllocID)`. -/
def machineName (taskName allocID : String) : String :=
  replaceSlash taskName ++ "-" ++ allocID

/-- The transfer-completion busy loop of CreateMachine: call ListTransfers
(whose result for the k-th call the oracle `listT` supplies), return the
listing error if it fails, exit the loop once the transfer id is absent,
otherwise loop again immediately. The loop body has no sleep, backoff or
deadline; `fuel` counts loop iterations the embedding is allowed to
unfold, so a `none` result means the loop was still running after `fuel`
iterations. Results: `some none` = loop exited normally, `some (some e)` =
returned with listing error `e`. -/
def pollFrom (listT : Nat → Except String (List Nat)) (transId : Nat) :
    Nat → Nat → Option (Option String)
  | _, 0 => none
  | k, fuel + 1 =>
    match listT k with
    | Except.error e => some (some e)
    | Except.ok ts => if transId ∈ ts then pollFrom listT transId (k + 1) fuel else some none

/-- Oracle for one CreateMachine run: the outcome of each external call,
in the order the source makes them. `pull` is the PullRaw result; `listT`
gives the k-th ListTransfers result; `createFile`, `execTmpl` and
`startUnit` are `none` on success and `some e` when the call fails with
error `e`; `job` is the string received from the StartUnit completion
channel. -/
structure CMWorld where
  pull : Except String Nat
  listT : Nat → Except String (List Nat)
  createFile : Option String
  execTmpl : Option String
  startUnit : Option String
  job : String

/-- Observable outcome of a CreateMachine run: the returned machine
pointer and error, which unit file (if any) exists on disk when the
function returns, and whether the non-done job outcome was merely logged. -/
structure CMResult where
  m : Option Machine
  err : Option String
  unitFile : Option String
  loggedStartFailed : Bool
deriving DecidableEq

/-- The fixed directory the source writes unit files into. -/
def nspawnPath (name : String) : String := "/etc/systemd/nspawn/" ++ name

/-- CreateMachine from the source, step by step: compute the machine name;
PullRaw (return its error on failure); busy-poll ListTransfers until the
transfer id is absent (returning a listing error if one occurs); create
the nspawn file (return on failure); execute the template into it (return
on failure, the created file left in place); StartUnit (return on failure,
file left in place); receive the job outcome from the channel and, when it
is not "done", only log — the named return values `m` and `err` are never
assigned on this path, so the function returns a nil machine and a nil
error. `none` means the poll loop was still running after `fuel`
iterations. -/
def CreateMachine (taskName allocID : String) (w : CMWorld) (fuel : Nat) :
    Option CMResult :=
  let mname := machineName taskName allocID
  match w.pull with
  | Except.error e => some ⟨none, some e, none, false⟩
  | Except.ok transId =>
    match pollFrom w.listT transId 0 fuel with
    | none => none
    | some (some e) => some ⟨none, some e, none, false⟩
    | some none =>
      match w.createFile with
      | some e => some ⟨none, some e, none, false⟩
      | none =>
        match w.execTmpl with
        | some e => some ⟨none, some e, some (nspawnPath mname), false⟩
        | none =>
          match w.startUnit with
          | some e => some ⟨none, some e, some (nspawnPath mname), false⟩
          | none => some ⟨none, none, some (nspawnPath mname), w.job != "done"⟩

/-- Modelled from the spec: the repository declares the machine states and
stubs out every registry operation (KillMachine, TerminateMachine and the
rest all panic), so the transition rule itself is missing from the source.
Rank of a state in the monotonic order Opening, Running, Closing. -/
def stateRank (s : String) : Option Nat :=
  if s = MachineStateOpening then some 0
  else if s = MachineStateRunning then some 1
  else if s = MachineStateClosing then some 2
  else none

/-- Modelled from the spec: MachineRegistry.transition applies a state
change only if it follows the strictly monotonic order
Opening, Running, Closing, and rejects with InvalidStateTransition
otherwise. -/
def transition (cur new : String) : Except String String :=
  match stateRank cur, stateRank new with
  | some i, some j => if i < j then Except.ok new else Except.error "InvalidStateTransition"
  | _, _ => Except.error "InvalidStateTransition"

theorem charLe_total : ∀ as bs, charLe as bs = true ∨ charLe bs as = true
  | [], _ => Or.inl rfl
  | _ :: _, [] => Or.inr rfl
  | a :: as, b :: bs => by
    by_cases hab : a < b
    · exact Or.inl (by simp [charLe, hab])
    · by_cases hba : b < a
      · exact Or.inr (by simp [charLe, hba])
      · rcases charLe_total as bs with h | h
        · exact Or.inl (by simp [charLe, hab, hba, h])
        · exact Or.inr (by simp [charLe, hab, hba, h])

theorem charLe_trans :
    ∀ as bs cs, charLe as bs = true → charLe bs cs = true → charLe as cs = true
  | [], _, _, _, _ => rfl
  | _ :: _, [], _, h1, _ => by simp [charLe] at h1
  | _ :: _, _ :: _, [], _, h2 => by simp [charLe] at h2
  | a :: as, b :: bs, c :: cs, h1, h2 => by
    simp only [charLe] at h1 h2 ⊢
    by_cases hab : a < b
    · by_cases hbc : b < c
      · simp [lt_trans hab hbc]
      · by_cases hcb : c < b
        · simp [hbc, hcb] at h2
        · have hbc' : b = c := le_antisymm (not_lt.mp hcb) (not_lt.mp hbc)
          simp [hbc' ▸ hab]
    · by_cases hba : b < a
      · simp [hab, hba] at h1
      · have hab' : a = b := le_antisymm (not_lt.mp hba) (not_lt.mp hab)
        subst hab'
        by_cases hac : a < c
        · simp [hac]
        · by_cases hca : c < a
          · simp [hac, hca] at h2
          · simp only [if_neg hab, if_neg hac, if_neg hca] at h1 h2 ⊢
            exact charLe_trans as bs cs h1 h2

theorem charLe_antisymm :
    ∀ as bs, charLe as bs = true → charLe bs as = true → as = bs
  | [], [], _, _ => rfl
  | [], _ :: _, _, h2 => by simp [charLe] at h2
  | _ :: _, [], h1, _ => by simp [charLe] at h1
  | a :: as, b :: bs, h1, h2 => by
    simp only [charLe] at h1 h2
    by_cases hab : a < b
    · simp [hab, lt_asymm hab] at h2
    · by_cases hba : b < a
      · simp [hab, hba] at h1
      · have hab' : a = b := le_antisymm (not_lt.mp hba) (not_lt.mp hab)
        subst hab'
        simp only [if_neg hab, if_neg hba] at h1 h2
        exact congrArg (a :: ·) (charLe_antisymm as bs h1 h2)

theorem string_le_antisymm {s t : String} (h1 : charLe s.data t.data = true)
    (h2 : charLe t.data s.data = true) : s = t := by
  cases s; cases t
  exact congrArg String.mk (charLe_antisymm _ _ h1 h2)

instance : IsTotal (String × String) envLe :=
  ⟨fun p q => charLe_total p.1.data q.1.data⟩

instance : IsTrans (String × String) envLe :=
  ⟨fun p q r h1 h2 => charLe_trans p.1.data q.1.data r.1.data h1 h2⟩

/-- Strict key order on environment entries; used to identify the sorted
list uniquely when keys are distinct. -/
def envLt (p q : String × String) : Prop := envLe p q ∧ p.1 ≠ q.1

instance : IsAntisymm (String × String) envLt :=
  ⟨fun _ _ h1 h2 => absurd (string_le_antisymm h1.1 h2.1) h1.2⟩

theorem sortEnv_perm (l : List (String × String)) : (sortEnv l).Perm l :=
  List.perm_insertionSort envLe l

theorem sortEnv_sorted (l : List (String × String)) : List.Sorted envLe (sortEnv l) :=
  List.sorted_insertionSort envLe l

theorem sortEnv_strictSorted (l : List (String × String))
    (hnd : (l.map Prod.fst).Nodup) : List.Sorted envLt (sortEnv l) := by
  have hperm : (sortEnv l).Perm l := sortEnv_perm l
  have hnd' : ((sortEnv l).map Prod.fst).Nodup :=
    ((hperm.map Prod.fst).nodup_iff).mpr hnd
  have hne : (sortEnv l).Pairwise (fun p q => p.1 ≠ q.1) := List.pairwise_map.mp hnd'
  exact (sortEnv_sorted l).and hne

theorem sortEnv_eq_of_perm {l₁ l₂ : List (String × String)} (h : l₁.Perm l₂)
    (hnd : (l₁.map Prod.fst).Nodup) : sortEnv l₁ = sortEnv l₂ := by
  have hnd₂ : (l₂.map Prod.fst).Nodup := ((h.map Prod.fst).nodup_iff).mp hnd
  exact List.eq_of_perm_of_sorted
    ((sortEnv_perm l₁).trans (h.trans (sortEnv_perm l₂).symm))
    (sortEnv_strictSorted l₁ hnd) (sortEnv_strictSorted l₂ hnd₂)

/-- Claim C2: the unit renderer is deterministic. In the embedding `render`
is a function, so a fixed `TaskConfig` trivially renders identically; the
substantive content is that the environment map has no intrinsic order, and
any two presentation orders of the same entries (with the distinct keys a
Go map guarantees) produce byte-identical output, emitted sorted by key. -/
theorem render_deterministic (c : TaskConfig) (e₁ e₂ : List (String × String))
    (hperm : e₁.Perm e₂) (hnd : (e₁.map Prod.fst).Nodup) :
    render { c with Environment := e₁ } = render { c with Environment := e₂ } ∧
    List.Sorted envLe (sortEnv e₁) := by
  refine ⟨?_, sortEnv_sorted e₁⟩
  simp only [render, unitLines, execLines, envLines, filesLines, networkLines]
  rw [sortEnv_eq_of_perm hperm hnd]

/-- Witness for C2 at the test's environment presented in both orders. -/
theorem render_deterministic_witness :
    ([("a", "b"), ("1", "2")] : List (String × String)).Perm [("1", "2"), ("a", "b")] ∧
    render { Environment := [("a", "b"), ("1", "2")] } =
      render { Environment := [("1", "2"), ("a", "b")] } :=
  ⟨List.Perm.swap _ _ _,
   (render_deterministic {} [("a", "b"), ("1", "2")] [("1", "2"), ("a", "b")]
     (List.Perm.swap _ _ _) (by decide)).1⟩

/-- Claim C6: the machine name is a pure deterministic function of task
identity: the task name with every slash replaced by an underscore, joined
to the allocation identifier by a single hyphen; with the task name fixed,
distinct allocation identifiers give distinct machine names. -/
theorem machineName_unique (taskName a₁ a₂ : String) (h : a₁ ≠ a₂) :
    machineName taskName a₁ = replaceSlash taskName ++ "-" ++ a₁ ∧
    machineName taskName a₁ ≠ machineName taskName a₂ := by
  refine ⟨rfl, fun heq => h ?_⟩
  have hd := congrArg String.data heq
  simp only [machineName, String.data_append] at hd
  have hd' := List.append_cancel_left hd
  cases a₁; cases a₂
  exact congrArg String.mk hd'

/-- Witness for C6 on a task name containing a slash. -/
theorem machineName_unique_witness :
    ("x" : String) ≠ "y" ∧
    (machineName "a/b" "x" = replaceSlash "a/b" ++ "-" ++ "x" ∧
     machineName "a/b" "x" ≠ machineName "a/b" "y") :=
  ⟨by decide, machineName_unique "a/b" "x" "y" (by decide)⟩

/-- Claim C1 as stated is false on the code: in the rendered output for the
test configuration the Interface line is not empty — the template joins the
Parameters field into the Interface directive, so the line reads
Interface=1 2 3. -/
theorem interface_line_not_empty :
    Line.directive "Interface" "" ∉ unitLines testConfig ∧
    Line.directive "Interface" "1 2 3" ∈ unitLines testConfig := by decide

/-- Claim C1 amended: rendering the test configuration produces exactly the
text of the concrete round-trip, with the Interface line rendering the
space-joined Parameters (Interface=1 2 3) rather than an empty value; all
other lines are as the claim describes them. -/
theorem template_roundtrip : render testConfig = result := by decide

/-- The Go zero value of TaskConfig: every field unset. -/
def emptyConfig : TaskConfig := {}

/-- Claim C7 as stated is false on the code: with the integer fields unset
(the Go zero value) the rendered lines carry the text 0, not an empty
value; there is no unset sentinel distinct from zero. -/
theorem unset_integer_renders_zero :
    Line.directive "KillSignal" "0" ∈ unitLines emptyConfig ∧
    Line.directive "KillSignal" "" ∉ unitLines emptyConfig ∧
    Line.directive "OOMScoreAdjust" "0" ∈ unitLines emptyConfig ∧
    Line.directive "OOMScoreAdjust" "" ∉ unitLines emptyConfig := by decide

/-- Claim C7 amended: the integer-valued options KillSignal and
OOMScoreAdjust always render as the decimal text of the stored value; an
unset field holds the zero value and renders as the text 0, so no empty
value and no unset sentinel exists. -/
theorem integer_fields_render_decimal (c : TaskConfig) :
    Line.directive "KillSignal" (toString c.KillSignal) ∈ unitLines c ∧
    Line.directive "OOMScoreAdjust" (toString c.OOMScoreAdjust) ∈ unitLines c := by
  constructor <;> simp [unitLines, execLines]

/-- Helper for C3: the poll loop never exits while the transfer id stays in
every listing, from any call index. -/
theorem pollFrom_none (listT : Nat → Except String (List Nat)) (transId : Nat)
    (h : ∀ k, ∃ ts, listT k = Except.ok ts ∧ transId ∈ ts) :
    ∀ fuel k, pollFrom listT transId k fuel = none := by
  intro fuel
  induction fuel with
  | zero => intro _; rfl
  | succ n ih =>
    intro k
    obtain ⟨ts, hk, hmem⟩ := h k
    simp only [pollFrom, hk]
    rw [if_pos hmem]
    exact ih (k + 1)

/-- Claim C3 is right and the code is wrong: the transfer wait is an
unbounded busy loop with no backoff and no deadline; if the transfer id is
never absent from the active-transfer listing, CreateMachine is still
inside the loop after every number of iterations and never produces an
ImageTransferTimeout (or any other) result. -/
theorem poll_never_terminates (w : CMWorld) (transId : Nat)
    (hpull : w.pull = Except.ok transId)
    (h : ∀ k, ∃ ts, w.listT k = Except.ok ts ∧ transId ∈ ts) :
    ∀ fuel taskName allocID, CreateMachine taskName allocID w fuel = none := by
  intro fuel taskName allocID
  simp only [CreateMachine, hpull]
  rw [pollFrom_none w.listT transId h fuel 0]

/-- Witness for C3: a listing that always contains the transfer id keeps
the loop running at every tested fuel. -/
theorem poll_never_terminates_witness :
    CreateMachine "task" "alloc"
      ⟨Except.ok 5, fun _ => Except.ok [5], none, none, none, "done"⟩ 7 = none ∧
    CreateMachine "task" "alloc"
      ⟨Except.ok 5, fun _ => Except.ok [5], none, none, none, "done"⟩ 100 = none :=
  ⟨poll_never_terminates _ 5 rfl (fun _ => ⟨[5], rfl, by decide⟩) 7 "task" "alloc",
   poll_never_terminates _ 5 rfl (fun _ => ⟨[5], rfl, by decide⟩) 100 "task" "alloc"⟩

/-- Oracle where every call succeeds but the init facility reports the job
outcome "replaced" instead of "done". -/
def replacedJobWorld : CMWorld :=
  ⟨Except.ok 1, fun _ => Except.ok [], none, none, none, "replaced"⟩

/-- Claim C4 is right and the code is wrong: when the job outcome is
"replaced" (non-done), CreateMachine only logs the failure and returns a
nil error — the non-done outcome is reported to the caller as success, not
as ServiceStartFailed. -/
theorem nondone_job_returns_nil_error :
    CreateMachine "task" "alloc" replacedJobWorld 1 =
      some ⟨none, none, some "/etc/systemd/nspawn/task-alloc", true⟩ := by decide

/-- Oracle where the unit file is created but executing the template into
it fails. -/
def renderFailWorld : CMWorld :=
  ⟨Except.ok 1, fun _ => Except.ok [], none, some "template execute failed", none, "done"⟩

/-- Claim C5 is right and the code is wrong: when rendering fails after the
unit file was created, CreateMachine surfaces the error with the unit file
still on disk — no rollback of the written unit file (or of anything else)
happens on any failure path. -/
theorem unit_file_left_after_failure :
    CreateMachine "task" "alloc" renderFailWorld 1 =
      some ⟨none, some "template execute failed",
            some "/etc/systemd/nspawn/task-alloc", false⟩ := by decide

/-- Oracle where every step succeeds and the job outcome is "done". -/
def successWorld : CMWorld :=
  ⟨Except.ok 1, fun _ => Except.ok [], none, none, none, "done"⟩

/-- Claim C8 is right and the code is wrong: on the fully successful path
the named return value m is never assigned, so CreateMachine returns a nil
Machine together with a nil error instead of a non-nil Machine entity. -/
theorem success_returns_nil_machine :
    CreateMachine "task" "alloc" successWorld 1 =
      some ⟨none, none, some "/etc/systemd/nspawn/task-alloc", false⟩ := by decide

/-- Helper for C9: every rank is at most 2. -/
theorem stateRank_le_two (s : String) (j : Nat) (h : stateRank s = some j) : j ≤ 2 := by
  unfold stateRank at h
  split at h
  · cases h; omega
  · split at h
    · cases h; omega
    · split at h
      · cases h; omega
      · cases h

/-- Claim C9: the modelled registry transition accepts a state change
exactly when it moves forward in the order Opening, Running, Closing; in
particular it rejects Running to Opening and every transition out of
Closing with InvalidStateTransition. -/
theorem transition_monotonic :
    (∀ cur new, transition cur new = Except.ok new ↔
      ∃ i j, stateRank cur = some i ∧ stateRank new = some j ∧ i < j) ∧
    transition MachineStateRunning MachineStateOpening =
      Except.error "InvalidStateTransition" ∧
    (∀ s, transition MachineStateClosing s = Except.error "InvalidStateTransition") ∧
    transition MachineStateOpening MachineStateRunning = Except.ok MachineStateRunning ∧
    transition MachineStateRunning MachineStateClosing = Except.ok MachineStateClosing := by
  refine ⟨?_, rfl, ?_, rfl, rfl⟩
  · intro cur new
    unfold transition
    cases h1 : stateRank cur with
    | none => simp
    | some i =>
      cases h2 : stateRank new with
      | none => simp
      | some j =>
        by_cases hij : i < j
        · simp [hij]
        · simp [hij]
  · intro s
    unfold transition
    have h1 : stateRank MachineStateClosing = some 2 := rfl
    rw [h1]
    cases h2 : stateRank s with
    | none => rfl
    | some j =>
      have hj : ¬ 2 < j := by
        have := stateRank_le_two s j h2
        omega
      simp [hj]

/-- The single-directive lines of the template, one per field, in template
order: each of these renders exactly one line whatever the field's value,
an empty value leaving just a bare Key= line. -/
def singleDirectiveLines (c : TaskConfig) : List Line :=
  [Line.directive "Boot" (onOff c.Boot),
   Line.directive "Ephemeral" (onOff c.Ephemeral),
   Line.directive "ProcessTwo" (onOff c.ProcessTwo),
   Line.directive "Parameters" (String.intercalate "," c.Parameters),
   Line.directive "User" c.User,
   Line.directive "WorkingDirectory" c.WorkingDirectory,
   Line.directive "PivotRoot" c.PivotRoot,
   Line.directive "Capability" (String.intercalate " " c.Capability),
   Line.directive "DropCapability" (String.intercalate " " c.DropCapability),
   Line.directive "NoNewPrivileges" (onOff c.NoNewPrivileges),
   Line.directive "KillSignal" (toString c.KillSignal),
   Line.directive "Personality" c.Personality,
   Line.directive "MachineID" c.MachineID,
   Line.directive "PrivateUsers" c.PrivateUsers,
   Line.directive "NotifyReady" (onOff c.NotifyReady),
   Line.directive "SystemCallFilter" (String.intercalate " " c.SystemCallFilter),
   Line.directive "LimitCPU" c.LimitCPU,
   Line.directive "LimitFSIZE" c.LimitFSIZE,
   Line.directive "LimitDATA" c.LimitDATA,
   Line.directive "LimitSTACK" c.LimitSTACK,
   Line.directive "LimitCORE" c.LimitCORE,
   Line.directive "LimitRSS" c.LimitRSS,
   Line.directive "LimitNOFILE" c.LimitNOFILE,
   Line.directive "LimitAS" c.LimitAS,
   Line.directive "LimitNPROC" c.LimitNPROC,
   Line.directive "LimitMEMLOCK" c.LimitMEMLOCK,
   Line.directive "LimitLOCKS" c.LimitLOCKS,
   Line.directive "LimitSIGPENDING" c.LimitSIGPENDING,
   Line.directive "LimitMSGQUEUE" c.LimitMSGQUEUE,
   Line.directive "LimitNICE" c.LimitNICE,
   Line.directive "LimitRTPRIO" c.LimitRTPRIO,
   Line.directive "LimitRTTIME" c.LimitRTTIME,
   Line.directive "OOMScoreAdjust" (toString c.OOMScoreAdjust),
   Line.directive "CPUAffinity" (String.intercalate "," c.CPUAffinity),
   Line.directive "Hostname" c.Hostname,
   Line.directive "ResolvConf" c.ResolvConf,
   Line.directive "Timezone" c.Timezone,
   Line.directive "LinkJournal" c.LinkJournal,
   Line.directive "ReadOnly" (onOff c.ReadOnly),
   Line.directive "Volatile" c.Volatile,
   Line.directive "PrivateUsersChown" (onOff c.PrivateUsersChown),
   Line.directive "Private" (onOff c.Private),
   Line.directive "VirtualEthernet" (onOff c.VirtualEthernet),
   Line.directive "Interface" (String.intercalate " " c.Parameters),
   Line.directive "MACVLAN" (String.intercalate " " c.MACVLAN),
   Line.directive "IPVLAN" (String.intercalate " " c.IPVLAN),
   Line.directive "Bridge" c.Bridge,
   Line.directive "Zone" c.Zone]

/-- Claim C10: for every TaskConfig the rendered output contains the three
section headers in order; every single-directive field emits its directive
line (even when its value renders empty, e.g. a bare DropCapability= line
for the empty list); and each repeated-directive field emits no line at all
when its list is empty. -/
theorem sections_and_directive_lines (c : TaskConfig) :
    List.Sublist [Line.header "Exec", Line.header "Files", Line.header "Network"]
      (unitLines c) ∧
    singleDirectiveLines c ⊆ unitLines c ∧
    (c.DropCapability = [] → Line.directive "DropCapability" "" ∈ unitLines c) ∧
    (c.Bind = [] → ∀ v, Line.directive "Bind" v ∉ unitLines c) ∧
    (c.BindReadOnly = [] → ∀ v, Line.directive "BindReadOnly" v ∉ unitLines c) ∧
    (c.TemporaryFileSystem = [] → ∀ v, Line.directive "TemporaryFileSystem" v ∉ unitLines c) ∧
    (c.Inaccessible = [] → ∀ v, Line.directive "Inaccessible" v ∉ unitLines c) ∧
    (c.Overlay = [] → ∀ v, Line.directive "Overlay" v ∉ unitLines c) ∧
    (c.OverlayReadOnly = [] → ∀ v, Line.directive "OverlayReadOnly" v ∉ unitLines c) ∧
    (c.VirtualEthernetExtra = [] → ∀ v, Line.directive "VirtualEthernetExtra" v ∉ unitLines c) ∧
    (c.Port = [] → ∀ v, Line.directive "Port" v ∉ unitLines c) := by
  have hempty : String.intercalate " " ([] : List String) = "" := rfl
  refine ⟨?_, ?_, ?_, ?_, ?_, ?_, ?_, ?_, ?_, ?_, ?_⟩
  · unfold unitLines
    simp only [List.cons_append, List.append_assoc]
    exact List.Sublist.cons₂ _ (List.Sublist.trans
      (List.Sublist.cons _ (List.Sublist.cons₂ _ (List.Sublist.trans
        (List.Sublist.cons _ (List.Sublist.cons₂ _ (List.nil_sublist _)))
        (List.sublist_append_right (filesLines c) _))))
      (List.sublist_append_right (execLines c) _))
  · simp [singleDirectiveLines, List.cons_subset, unitLines, execLines, filesLines,
      networkLines]
  · intro h
    simp [unitLines, execLines, h, hempty]
  · intro h v hmem
    simp [unitLines, execLines, filesLines, networkLines, envLines, h] at hmem
  · intro h v hmem
    simp [unitLines, execLines, filesLines, networkLines, envLines, h] at hmem
  · intro h v hmem
    simp [unitLines, execLines, filesLines, networkLines, envLines, h] at hmem
  · intro h v hmem
    simp [unitLines, execLines, filesLines, networkLines, envLines, h] at hmem
  · intro h v hmem
    simp [unitLines, execLines, filesLines, networkLines, envLines, h] at hmem
  · intro h v hmem
    simp [unitLines, execLines, filesLines, networkLines, envLines, h] at hmem
  · intro h v hmem
    simp [unitLines, execLines, filesLines, networkLines, envLines, h] at hmem
  · intro h v hmem
    simp [unitLines, execLines, filesLines, networkLines, envLines, h] at hmem

/-- Witness for C10 at the zero-valued configuration, whose
repeated-directive lists are all empty. -/
theorem sections_and_directive_lines_witness :
    List.Sublist [Line.header "Exec", Line.header "Files", Line.header "Network"]
      (unitLines emptyConfig) ∧
    Line.directive "DropCapability" "" ∈ unitLines emptyConfig ∧
    (∀ v, Line.directive "Bind" v ∉ unitLines emptyConfig) ∧
    (∀ v, Line.directive "Overlay" v ∉ unitLines emptyConfig) ∧
    (∀ v, Line.directive "Port" v ∉ unitLines emptyConfig) := by
  obtain ⟨h1, _, h3, h4, _, _, _, h8, _, _, h11⟩ :=
    sections_and_directive_lines emptyConfig
  exact ⟨h1, h3 rfl, h4 rfl, h8 rfl, h11 rfl⟩

end NomadNspawn
